import Mathlib

/-!
Verification of the OpenELP EchoLink proxy server core against its
natural-language specification.  The definitions below are a shallow
embedding of the C sources (src/src/*.c); machine integers are
modelled as `Nat` with explicit reduction modulo 2^32 where the C code
relies on 32-bit wraparound.  Byte strings are `List Nat` with entries
below 256.
-/

namespace OpenELP

/-! ## Bytes and 32-bit words -/

/-- 2^32, the modulus for 32-bit arithmetic. -/
def U32 : Nat := 4294967296

/-- Addition modulo 2^32. -/
def add32 (a b : Nat) : Nat := (a + b) % U32

/-- Left rotation of a 32-bit word by `n` bits. -/
def rotl32 (x n : Nat) : Nat := ((x <<< n) % U32) ||| (x >>> (32 - n))

/-- Bitwise complement of a 32-bit word. -/
def not32 (x : Nat) : Nat := x ^^^ 4294967295

/-- The four little-endian bytes of a 32-bit word. -/
def toLeBytes4 (w : Nat) : List Nat :=
  [w % 256, w / 256 % 256, w / 65536 % 256, w / 16777216 % 256]

/-- The eight little-endian bytes of a 64-bit word. -/
def toLeBytes8 (w : Nat) : List Nat :=
  toLeBytes4 (w % U32) ++ toLeBytes4 (w / U32 % U32)

/-- A 32-bit word from four bytes in little-endian order. -/
def leWord (b0 b1 b2 b3 : Nat) : Nat :=
  b0 + 256 * b1 + 65536 * b2 + 16777216 * b3

/-- Group a byte list into 32-bit little-endian words (as in MD5 block decoding). -/
def bytesToWords : List Nat → List Nat
  | b0 :: b1 :: b2 :: b3 :: rest => leWord b0 b1 b2 b3 :: bytesToWords rest
  | _ => []

/-- The ASCII bytes of a string (all strings handled by the proxy are ASCII). -/
def strBytes (s : String) : List Nat := s.data.map Char.toNat

/-! ## MD5

Modelled from the spec: the MD5 implementation (`md5.h`, referenced by
src/src/digest.c via `MD5_Init`/`MD5_Update`/`MD5_Final`) is not under src/;
the spec describes `digest(bytes)` as the 16-byte MD5 of the input, so we
embed the standard MD5 algorithm (RFC 1321).  The repository test
test/test_md5.c pins `digest_get("thequickbrownfox")` to a concrete digest,
which this embedding reproduces (`md5_matches_repo_test` below). -/

/-- The 64 MD5 sine-derived round constants. -/
def md5K : List Nat :=
  [0xd76aa478, 0xe8c7b756, 0x242070db, 0xc1bdceee,
   0xf57c0faf, 0x4787c62a, 0xa8304613, 0xfd469501,
   0x698098d8, 0x8b44f7af, 0xffff5bb1, 0x895cd7be,
   0x6b901122, 0xfd987193, 0xa679438e, 0x49b40821,
   0xf61e2562, 0xc040b340, 0x265e5a51, 0xe9b6c7aa,
   0xd62f105d, 0x02441453, 0xd8a1e681, 0xe7d3fbc8,
   0x21e1cde6, 0xc33707d6, 0xf4d50d87, 0x455a14ed,
   0xa9e3e905, 0xfcefa3f8, 0x676f02d9, 0x8d2a4c8a,
   0xfffa3942, 0x8771f681, 0x6d9d6122, 0xfde5380c,
   0xa4beea44, 0x4bdecfa9, 0xf6bb4b60, 0xbebfbc70,
   0x289b7ec6, 0xeaa127fa, 0xd4ef3085, 0x04881d05,
   0xd9d4d039, 0xe6db99e5, 0x1fa27cf8, 0xc4ac5665,
   0xf4292244, 0x432aff97, 0xab9423a7, 0xfc93a039,
   0x655b59c3, 0x8f0ccc92, 0xffeff47d, 0x85845dd1,
   0x6fa87e4f, 0xfe2ce6e0, 0xa3014314, 0x4e0811a1,
   0xf7537e82, 0xbd3af235, 0x2ad7d2bb, 0xeb86d391]

/-- The 64 MD5 per-round left-rotation amounts. -/
def md5S : List Nat :=
  [7, 12, 17, 22, 7, 12, 17, 22, 7, 12, 17, 22, 7, 12, 17, 22,
   5, 9, 14, 20, 5, 9, 14, 20, 5, 9, 14, 20, 5, 9, 14, 20,
   4, 11, 16, 23, 4, 11, 16, 23, 4, 11, 16, 23, 4, 11, 16, 23,
   6, 10, 15, 21, 6, 10, 15, 21, 6, 10, 15, 21, 6, 10, 15, 21]

/-- MD5 working state: the four 32-bit registers A, B, C, D. -/
structure Md5St where
  a : Nat
  b : Nat
  c : Nat
  d : Nat
deriving DecidableEq, Repr

/-- One of the 64 MD5 round operations, selecting the round function and
message-word schedule from the round index `i`. -/
def md5Step (m : List Nat) (i : Nat) (st : Md5St) : Md5St :=
  let f :=
    if i < 16 then (st.b &&& st.c) ||| (not32 st.b &&& st.d)
    else if i < 32 then (st.d &&& st.b) ||| (not32 st.d &&& st.c)
    else if i < 48 then st.b ^^^ st.c ^^^ st.d
    else st.c ^^^ (st.b ||| not32 st.d)
  let g :=
    if i < 16 then i
    else if i < 32 then (5 * i + 1) % 16
    else if i < 48 then (3 * i + 5) % 16
    else (7 * i) % 16
  let tmp := (st.a + f + md5K.getD i 0 + m.getD g 0) % U32
  ⟨st.d, add32 st.b (rotl32 tmp (md5S.getD i 0)), st.b, st.c⟩

/-- Apply MD5 rounds `64 - k` through `63` (so `md5Iter m 64` is all 64 rounds). -/
def md5Iter (m : List Nat) : Nat → Md5St → Md5St
  | 0, st => st
  | k + 1, st => md5Iter m k (md5Step m (64 - (k + 1)) st)

/-- Compress one 64-byte block into the chaining state. -/
def md5Block (st0 : Md5St) (block : List Nat) : Md5St :=
  let m := bytesToWords block
  let st := md5Iter m 64 st0
  ⟨add32 st0.a st.a, add32 st0.b st.b, add32 st0.c st.c, add32 st0.d st.d⟩

/-- Split a byte list into successive 64-byte chunks (fuel-driven so that it
reduces by structural recursion; `fuel` bounds the number of chunks). -/
def chunks64Go : Nat → List Nat → List (List Nat)
  | 0, _ => []
  | _, [] => []
  | fuel + 1, b :: l => (b :: l).take 64 :: chunks64Go fuel ((b :: l).drop 64)

/-- Split a byte list into successive 64-byte chunks. -/
def chunks64 (l : List Nat) : List (List Nat) := chunks64Go l.length l

/-- MD5 padding: a 0x80 byte, zeros to 56 mod 64, then the 64-bit
little-endian bit length. -/
def md5Pad (msg : List Nat) : List Nat :=
  msg ++ 128 :: List.replicate ((119 - msg.length % 64) % 64) 0
      ++ toLeBytes8 (8 * msg.length)

/-- The initial MD5 chaining state. -/
def md5Init : Md5St := ⟨0x67452301, 0xefcdab89, 0x98badcfe, 0x10325476⟩

/-- The 16-byte MD5 digest of a byte list. -/
def md5 (msg : List Nat) : List Nat :=
  let st := (chunks64 (md5Pad msg)).foldl md5Block md5Init
  toLeBytes4 st.a ++ toLeBytes4 st.b ++ toLeBytes4 st.c ++ toLeBytes4 st.d

/-! ## Digest utilities (src/src/digest.c) -/

/-- Lowercase hexadecimal digit table (src/src/digest.c `digest_to_hex8`). -/
def hexLookup : List Char :=
  ['0', '1', '2', '3', '4', '5', '6', '7'] ++
  ['8', '9', 'a', 'b', 'c', 'd', 'e', 'f']

/-- Uppercase hexadecimal digit table (src/src/digest.c `digest_to_hex8_u`). -/
def hexLookupU : List Char :=
  ['0', '1', '2', '3', '4', '5', '6', '7'] ++
  ['8', '9', 'A', 'B', 'C', 'D', 'E', 'F']

/-- Two lowercase hex characters of one byte (`digest_to_hex8`). -/
def digest_to_hex8 (data : Nat) : List Char :=
  [hexLookup.getD (data / 16) '0', hexLookup.getD (data % 16) '0']

/-- Two uppercase hex characters of one byte (`digest_to_hex8_u`). -/
def digest_to_hex8_u (data : Nat) : List Char :=
  [hexLookupU.getD (data / 16) '0', hexLookupU.getD (data % 16) '0']

/-- Eight lowercase hex characters of a 32-bit value, most significant byte
first (`digest_to_hex32`, which hex-encodes the bytes of `htonl(data)`). -/
def digest_to_hex32 (data : Nat) : List Char :=
  digest_to_hex8 (data / 16777216 % 256) ++ digest_to_hex8 (data / 65536 % 256) ++
  digest_to_hex8 (data / 256 % 256) ++ digest_to_hex8 (data % 256)

/-- The 32 hex characters of a 16-byte digest, byte by byte, using the
UPPERCASE table (`digest_to_str` calls `digest_to_hex8_u`). -/
def digest_to_str (md5bytes : List Nat) : List Char :=
  md5bytes.flatMap digest_to_hex8_u

/-- The same conversion with the lowercase table; used only to state what the
spec asserts about the registration digest. -/
def digest_to_str_lower (md5bytes : List Nat) : List Char :=
  md5bytes.flatMap digest_to_hex8

/-! ## Password response and its verification (src/src/proxy.c) -/

/-- ASCII uppercasing of one byte as in `get_password_response`: bytes 97..122
have 32 subtracted, all others pass through. -/
def upperByte (b : Nat) : Nat := if 97 ≤ b ∧ b ≤ 122 then b - 32 else b

/-- `get_password_response` (src/src/proxy.c:981): the MD5 digest of the
uppercased password bytes followed by the eight lowercase hex characters of
the nonce. -/
def get_password_response (nonce : Nat) (password : String) : List Nat :=
  md5 ((strBytes password).map upperByte ++ (digest_to_hex32 nonce).map Char.toNat)

/-- The byte-for-byte comparison loop of `proxy_worker_authorize`
(src/src/proxy.c:269): compares the expected response against the received
bytes, stopping at the first mismatch. -/
def authCompare : List Nat → List Nat → Bool
  | [], _ => true
  | _ :: _, [] => false
  | e :: es, r :: rs => if e = r then authCompare es rs else false

/-- The password-verification step of `proxy_worker_authorize`: on a full
match it proceeds (result 0, no SYSTEM message); on any byte mismatch it
sends SYSTEM(BAD_PASSWORD) and returns -EACCES (-13).  The result pairs the
return code with whether the BAD_PASSWORD frame was sent. -/
def proxy_worker_verify (nonce : Nat) (password : String) (received : List Nat) :
    Int × Bool :=
  if authCompare (get_password_response nonce password) received
  then (0, false)
  else (-13, true)

/-! ## Slot state and `proxy_conn_accept` -/

/-- The observable state of one slot (`proxy_conn_handle` and its private
data): the optionally bound client connection (modelled by an id) and the
last-seen callsign. -/
structure SlotState where
  conn_client : Option Nat
  callsign : String
deriving DecidableEq, Repr

/-- Modelled from the spec: the four-argument `proxy_conn_accept` declared in
src/include/proxy_conn.h and called from src/src/proxy.c is absent from src
(src/src/proxy_conn.c is an older revision whose `proxy_conn_accept` takes
only the slot and the connection).  Spec section 4.5: claims this slot for a
client; fails Busy (-EBUSY = -16) if already bound; if `reconnect_only` is
true, additionally fails Busy unless the callsign equals the slot's last
callsign; on success stores the callsign (overwriting the prior one) and
stores the client. -/
def proxy_conn_accept (pc : SlotState) (conn : Nat) (callsign : String)
    (reconnect_only : Bool) : SlotState × Int :=
  if pc.conn_client.isSome then (pc, -16)
  else if reconnect_only ∧ callsign ≠ pc.callsign then (pc, -16)
  else (⟨some conn, callsign⟩, 0)

/-! ## Admission scheduler (src/src/proxy.c `proxy_worker_func`, lines 359-411) -/

/-- The head-to-tail reconnect pass of `proxy_worker_func`: walk the idle
list calling `proxy_conn_accept` with `reconnect_only` set, stopping at the
first slot that does not answer -EBUSY; the result is the accepted slot
together with the idle list with that slot unlinked. -/
def reconnectPass (conn : Nat) (cs : String) : List SlotState →
    Option (SlotState × List SlotState)
  | [] => none
  | pc :: rest =>
    let r := proxy_conn_accept pc conn cs true
    if r.2 = -16 then
      match reconnectPass conn cs rest with
      | none => none
      | some (chosen, rest2) => some (chosen, pc :: rest2)
    else some (r.1, rest)

/-- The slot-admission step of `proxy_worker_func`: the reconnect pass over
the idle list, then a fall-back non-reconnect `proxy_conn_accept` on the
head (the least-recently-used slot); on success the chosen slot is unlinked
from the idle list.  `none` means no slot was acquired (empty pool or failed
accept), leaving the list unchanged. -/
def proxy_worker_schedule (idle : List SlotState) (conn : Nat) (cs : String) :
    Option (SlotState × List SlotState) :=
  match idle with
  | [] => none
  | pc0 :: rest =>
    match reconnectPass conn cs (pc0 :: rest) with
    | some r => some r
    | none =>
      let r := proxy_conn_accept pc0 conn cs false
      if r.2 < 0 then none else some (r.1, rest)

/-- Returning a slot to the pool after `proxy_conn_finish`
(src/src/proxy.c:405-411): the slot is appended at the tail of the idle
list. -/
def returnToPool (idle : List SlotState) (pc : SlotState) : List SlotState :=
  idle ++ [pc]

/-! ## Registration service (src/src/registration.c) -/

/-- Registration statuses, in the order of `enum REGISTRATION_STATUS`. -/
inductive RegStatus
  | unknown
  | ready
  | busy
  | off
deriving DecidableEq, Repr

/-- The numeric value of a `REGISTRATION_STATUS`. -/
def RegStatus.code : RegStatus → Nat
  | .unknown => 0
  | .ready => 1
  | .busy => 2
  | .off => 3

/-- The registration state protected by the service mutex. -/
structure RegState where
  slots_used : Nat
  slots_total : Nat
  status : RegStatus
deriving DecidableEq, Repr

/-- `registration_service_update` (src/src/registration.c:383): when the
current status is strictly below Off it stores the new counters, derives the
status (Busy when `slots_used >= slots_total`, else Ready) and wakes the
reporter worker; otherwise it does nothing.  The boolean records whether the
worker was woken. -/
def registration_service_update (st : RegState) (used total : Nat) :
    RegState × Bool :=
  if st.status.code < RegStatus.off.code then
    (⟨used, total, if used ≥ total then .busy else .ready⟩, true)
  else
    (st, false)

/-- `registration_service_stop` (src/src/registration.c:371): sets the
status to Off and wakes the worker. -/
def registration_service_stop (st : RegState) : RegState :=
  ⟨st.slots_used, st.slots_total, .off⟩

/-! ## Proxy shutdown (src/src/proxy.c `proxy_shutdown`, lines 870-883) -/

/-- The proxy-level state that `proxy_shutdown` touches. -/
structure ProxyState where
  usable_clients : Nat
  num_clients : Nat
  idle_worker_count : Nat
  reg : RegState
deriving DecidableEq, Repr

/-- The externally visible actions of `proxy_shutdown`, in program order. -/
inductive ShutdownEvent
  | setUsable (n : Nat)
  | regUpdate (used total : Nat)
  | listenerShutdown
deriving DecidableEq, Repr

/-- `proxy_update_registration` (src/src/proxy.c:1061): reads
`slots_total := usable_clients` and `slots_used := num_clients` minus the
number of idle workers, then calls `registration_service_update`.  Returns
the new state together with the `(used, total)` pair passed on. -/
def proxy_update_registration (ps : ProxyState) : ProxyState × (Nat × Nat) :=
  let slots_total := ps.usable_clients
  let slots_used := ps.num_clients - ps.idle_worker_count
  ({ ps with reg := (registration_service_update ps.reg slots_used slots_total).1 },
   (slots_used, slots_total))

/-- `proxy_shutdown` (src/src/proxy.c:870): sets `usable_clients` to 0 under
its mutex, calls `proxy_update_registration`, then shuts down the listening
socket.  The event list records the order of the three actions. -/
def proxy_shutdown (ps : ProxyState) : ProxyState × List ShutdownEvent :=
  let ps1 : ProxyState := { ps with usable_clients := 0 }
  let r := proxy_update_registration ps1
  (r.1, [.setUsable 0, .regUpdate r.2.1 r.2.2, .listenerShutdown])

/-! ## Registration report body (src/src/registration.c `send_report` and
`registration_service_start`) -/

/-- The salt appended when computing the registration digest. -/
def digest_salt : String := "#5A!zu"

/-- The protocol version reported by the proxy. -/
def protocol_version : String := "1.2.3o"

/-- `status_phrase` (src/src/registration.c:136): the strings sent to the
registrar; the Unknown entry is NULL, which makes `send_report` fail. -/
def status_phrase : RegStatus → Option String
  | .unknown => none
  | .ready => some "Ready"
  | .busy => some "Busy"
  | .off => some "Off"

/-- The precomputed suffix built by `registration_service_start`
(src/src/registration.c:331-345): the digest is MD5 of name, advertised
address and salt concatenated, rendered with `digest_to_str`. -/
def reg_suffix (name public_addr : String) (port : Nat) : String :=
  "&a=" ++ public_addr ++ "&d=" ++
  String.mk (digest_to_str (md5 (strBytes (name ++ public_addr ++ digest_salt)))) ++
  "&p=" ++ toString port ++ "&v=" ++ protocol_version

/-- The POST body assembled by `send_report` (src/src/registration.c:196):
`none` when the status has no phrase (Unknown). -/
def send_report_body (name comment : String) (pub : Char) (status : RegStatus)
    (used total : Nat) (public_addr : String) (port : Nat) : Option String :=
  match status_phrase status with
  | none => none
  | some s => some
      ("name=" ++ name ++ "&comment=" ++ comment ++ " [" ++ toString used ++
       "/" ++ toString total ++ "]&public=" ++ String.mk [pub] ++ "&status=" ++ s ++
       reg_suffix name public_addr port)

/-- The body in the form the spec claims it, with the digest rendered in
LOWERCASE hex; stated from the spec wording for comparison with
`send_report_body`. -/
def spec_report_body (name comment : String) (pub : Char) (status : RegStatus)
    (used total : Nat) (public_addr : String) (port : Nat) : Option String :=
  match status_phrase status with
  | none => none
  | some s => some
      ("name=" ++ name ++ "&comment=" ++ comment ++ " [" ++ toString used ++
       "/" ++ toString total ++ "]&public=" ++ String.mk [pub] ++ "&status=" ++ s ++
       "&a=" ++ public_addr ++ "&d=" ++
       String.mk (digest_to_str_lower (md5 (strBytes (name ++ public_addr ++ digest_salt)))) ++
       "&p=" ++ toString port ++ "&v=" ++ protocol_version)

/-! ## Callsign filter (src/src/proxy.c `proxy_authorize_callsign`, lines 454-485)

The regex engine (PCRE2, wrapped by src/src/regex.c `regex_is_match`) is an
external collaborator; a compiled pattern is modelled as an oracle giving the
engine result for each subject: 1 match, 0 no match, negative on engine
error. -/

/-- The allow-pattern half of `proxy_authorize_callsign`: with a pattern
configured, any result other than 1 (no match, or an engine error) yields
denial. -/
def authorize_allowed_part (allowed : Option (String → Int)) (cs : String) : Nat :=
  match allowed with
  | some f => if f cs ≠ 1 then 0 else 1
  | none => 1

/-- `proxy_authorize_callsign`: with a deny pattern configured, any result
other than 0 (a match, or an engine error) yields denial; otherwise the
allow pattern is consulted.  Returns 1 when the callsign is allowed. -/
def proxy_authorize_callsign (denied allowed : Option (String → Int))
    (cs : String) : Nat :=
  match denied with
  | some f => if f cs ≠ 0 then 0 else authorize_allowed_part allowed cs
  | none => authorize_allowed_part allowed cs

/-! ## Inbound frame dispatch (src/src/proxy_conn.c `process_message`,
lines 895-915) -/

/-- The handlers reachable from `process_message`. -/
inductive MsgHandler
  | tcpOpen
  | tcpData
  | tcpClose
  | udpData
  | udpControl
deriving DecidableEq, Repr

/-- The `switch` of `process_message`: the handler selected for a frame-type
byte, or `none` for the default branch, which logs and returns -EINVAL. -/
def process_message_dispatch (t : Nat) : Option MsgHandler :=
  if t = 1 then some .tcpOpen
  else if t = 2 then some .tcpData
  else if t = 3 then some .tcpClose
  else if t = 5 then some .udpData
  else if t = 6 then some .udpControl
  else none

/-! ## TCP_DATA handling (src/src/proxy_conn.c `process_tcp_data_message`,
lines 932-979)

`conn_recv` (src/src/conn.c:423) loops until the requested number of bytes
has arrived, so a successful receive returns exactly the requested count; the
claim concerns the scenario in which the client keeps supplying bytes, so
receives are modelled as succeeding.  Outbound `conn_send` results are
injected through an oracle indexed by the attempt number (0 on success,
negative on failure, as `conn_send` returns). -/

/-- `CONN_BUFF_LEN` (src/src/proxy_conn.c:67). -/
def CONN_BUFF_LEN : Nat := 4096

/-- The observable effects of one `process_tcp_data_message` run. -/
structure TcpDataSt where
  consumed : Nat
  sendAttempts : Nat
  tcpClosed : Bool
  tcpCloseSent : Nat
deriving DecidableEq, Repr

/-- The `while (msg_size > 0)` loop of `process_tcp_data_message`.  `fuel`
only drives the structural recursion; every iteration consumes at least one
byte, so `fuel = msgSize` suffices.  The `Int` is the running `tcp_ret`. -/
def process_tcp_data_loop (sendRes : Nat → Int) :
    Nat → Nat → Int → TcpDataSt → TcpDataSt × Int
  | _, 0, tcpRet, st => (st, tcpRet)
  | 0, _ + 1, tcpRet, st => (st, tcpRet)
  | fuel + 1, m + 1, tcpRet, st =>
    let curr := min (m + 1) CONN_BUFF_LEN
    let st1 : TcpDataSt := { st with consumed := st.consumed + curr }
    if tcpRet = 0 then
      let r := sendRes st1.sendAttempts
      let st2 : TcpDataSt := { st1 with sendAttempts := st1.sendAttempts + 1 }
      if r < 0 then
        process_tcp_data_loop sendRes fuel (m + 1 - curr) r
          { st2 with tcpClosed := true }
      else
        process_tcp_data_loop sendRes fuel (m + 1 - curr) r st2
    else
      process_tcp_data_loop sendRes fuel (m + 1 - curr) tcpRet st1

/-- `process_tcp_data_message`: run the loop from a clean state, then send a
single TCP_CLOSE frame when `tcp_ret` ended non-zero. -/
def process_tcp_data_message (sendRes : Nat → Int) (size : Nat) : TcpDataSt :=
  let r := process_tcp_data_loop sendRes size size 0 ⟨0, 0, false, 0⟩
  if r.2 ≠ 0 then { r.1 with tcpCloseSent := r.1.tcpCloseSent + 1 } else r.1

/-! ## Configuration parsing (src/src/conf.c) -/

/-- The configuration fields of `struct proxy_conf`; `none` is an unset
(NULL) field. -/
structure ProxyConf where
  port : Nat
  password : Option String
  bind_addr : Option String
  bind_addr_ext : Option String
  bind_addr_ext_add : Option (List String)
  calls_allowed : Option String
  calls_denied : Option String
  reg_name : Option String
  reg_comment : Option String
deriving DecidableEq, Repr

/-- `conf_init` (src/src/conf.c:493) combined with the zeroed allocation of
the handle: port 8100, everything else unset. -/
def conf_default : ProxyConf := ⟨8100, none, none, none, none, none, none, none, none⟩

/-- Space or tab, the characters trimmed around keys and before values. -/
def tabSp (c : Char) : Bool := c = ' ' ∨ c = '\t'

/-- The characters trimmed at the start of a line and after values. -/
def lineWs (c : Char) : Bool := c = ' ' ∨ c = '\t' ∨ c = '\n' ∨ c = '\r'

/-- C `isspace`, as skipped by `sscanf`. -/
def sscanfWs (c : Char) : Bool :=
  c = ' ' ∨ c = '\t' ∨ c = '\n' ∨ c = '\r' ∨ c = '\x0b' ∨ c = '\x0c'

/-- The numeric value of a decimal digit string. -/
def digitsVal (ds : List Char) : Nat :=
  ds.foldl (fun a c => a * 10 + (c.toNat - 48)) 0

/-- The `sscanf(val, "%hu%1s", ...) == 1` check of the Port branch
(src/src/conf.c:212): succeeds exactly when the value is a decimal number
followed by nothing but whitespace; the parsed port otherwise.  Sign
prefixes and out-of-range clamping of `%hu` are not modelled (the claims
concern only well-formed and empty values). -/
def port_scan (s : List Char) : Option Nat :=
  let s1 := s.dropWhile sscanfWs
  let ds := s1.takeWhile Char.isDigit
  let rest := s1.drop ds.length
  if ds = [] then none
  else if rest.dropWhile sscanfWs ≠ [] then none
  else some (digitsVal ds % 65536)

/-- The number of commas at positions 1 and beyond, as counted by the
`for (i = 1; ...)` loop of the AdditionalExternalBindAddresses branch. -/
def countCommasFrom1 (val : String) : Nat :=
  ((val.data.drop 1).filter (fun c => c = ',')).length

/-- `conf_parse_pair` (src/src/conf.c:203), with `key` and `val` already
trimmed by `conf_parse_line`.  Errors are the negative errno returns
(-EINVAL = -22); allocation failures are not modelled. -/
def conf_parse_pair (key val : String) (conf : ProxyConf) : Except Int ProxyConf :=
  if key = "Port" then
    match port_scan val.data with
    | none => .error (-22)
    | some p => .ok { conf with port := p }
  else if key = "Password" then
    if val = "notset" then .error (-22)
    else .ok { conf with password := some val }
  else if key = "BindAddress" then
    .ok { conf with bind_addr := if val = "" then none else some val }
  else if key = "CallsignsDenied" then
    .ok { conf with calls_denied := if val = "" then none else some val }
  else if key = "CallsignsAllowed" then
    .ok { conf with calls_allowed := if val = "" then none else some val }
  else if key = "RegistrationName" then
    .ok { conf with reg_name := if val = "" then none else some val }
  else if key = "ExternalBindAddress" then
    .ok { conf with bind_addr_ext := if val = "" then none else some val }
  else if key = "RegistrationComment" then
    .ok { conf with reg_comment := if val = "" then none else some val }
  else if key = "AdditionalExternalBindAddresses" then
    if val = "" then .ok { conf with bind_addr_ext_add := none }
    else
      let parts := (val.splitOn ",").take (countCommasFrom1 val + 1)
      .ok { conf with bind_addr_ext_add := some parts }
  else .ok conf

/-- `conf_parse_line` (src/src/conf.c:161): skip leading whitespace; ignore
comments, empty lines, lines starting with `=` and lines without `=`; trim
the key and the value, then hand the pair to `conf_parse_pair`. -/
def conf_parse_line (line : String) (conf : ProxyConf) : Except Int ProxyConf :=
  let l1 := line.data.dropWhile lineWs
  match l1 with
  | [] => .ok conf
  | c :: _ =>
    if c = '#' ∨ c = '=' then .ok conf
    else
      let k := l1.takeWhile (fun ch => ch ≠ '=')
      if k.length = l1.length then .ok conf
      else
        let key := (k.reverse.dropWhile tabSp).reverse
        let v1 := (l1.drop (k.length + 1)).dropWhile tabSp
        let val := (v1.reverse.dropWhile lineWs).reverse
        conf_parse_pair (String.mk key) (String.mk val) conf

/-! ## Supporting lemmas -/

set_option maxRecDepth 100000 in
/-- The embedded MD5 reproduces the digest pinned by test/test_md5.c for
the input "thequickbrownfox". -/
theorem md5_matches_repo_test :
    md5 (strBytes "thequickbrownfox") =
      [0x30, 0x8f, 0xb7, 0x6d, 0xc4, 0xd7, 0x30, 0x36,
       0x0e, 0xe3, 0x39, 0x32, 0xd2, 0xfb, 0x10, 0x56] := by
  decide

theorem authCompare_self (l : List Nat) : authCompare l l = true := by
  induction l with
  | nil => rfl
  | cons x xs ih => simp [authCompare, ih]

theorem authCompare_eq_true_iff (l : List Nat) :
    ∀ r : List Nat, l.length = r.length → (authCompare l r = true ↔ l = r) := by
  induction l with
  | nil =>
    intro r h
    cases r with
    | nil => simp [authCompare]
    | cons y ys => simp at h
  | cons x xs ih =>
    intro r h
    cases r with
    | nil => simp at h
    | cons y ys =>
      simp only [authCompare]
      by_cases hxy : x = y
      · subst hxy
        simpa using ih ys (by simpa using h)
      · simp [hxy]

theorem md5_length (msg : List Nat) : (md5 msg).length = 16 := by
  simp [md5, toLeBytes4]

/-! ## C1 -/

/-- C1 (amended): for every 32-bit nonce N and non-empty passwords P, P2, the
verification in `proxy_worker_authorize` accepts the response
MD5(uppercase(P) || hex32_be(N)) computed for (N, P); it accepts the
response computed for (N, P2) exactly when the two 16-byte responses
coincide; and whenever the responses differ in any byte it sends
SYSTEM(BAD_PASSWORD) and fails with -EACCES.  (The original claim, that
every P2 different from P is rejected, is refuted by
`password_verify_accepts_other_password`: uppercasing makes verification
case-insensitive in the password letters.) -/
theorem password_response_verification (nonce : Nat) (p p2 : String)
    (_hp : p ≠ "") (_hp2 : p2 ≠ "") :
    proxy_worker_verify nonce p (get_password_response nonce p) = (0, false) ∧
    (proxy_worker_verify nonce p (get_password_response nonce p2) = (0, false) ↔
      get_password_response nonce p2 = get_password_response nonce p) ∧
    (get_password_response nonce p2 ≠ get_password_response nonce p →
      proxy_worker_verify nonce p (get_password_response nonce p2) = (-13, true)) := by
  have hlen : (get_password_response nonce p).length =
      (get_password_response nonce p2).length := by
    unfold get_password_response
    rw [md5_length, md5_length]
  have hiff := authCompare_eq_true_iff (get_password_response nonce p)
    (get_password_response nonce p2) hlen
  refine ⟨?_, ?_, ?_⟩
  · simp [proxy_worker_verify, authCompare_self]
  · constructor
    · intro hacc
      by_contra hne
      have : authCompare (get_password_response nonce p)
          (get_password_response nonce p2) = false := by
        cases hcmp : authCompare (get_password_response nonce p)
            (get_password_response nonce p2) with
        | false => rfl
        | true => exact absurd (hiff.mp hcmp).symm hne
      simp [proxy_worker_verify, this] at hacc
    · intro heq
      rw [heq]
      simp [proxy_worker_verify, authCompare_self]
  · intro hne
    have : authCompare (get_password_response nonce p)
        (get_password_response nonce p2) = false := by
      cases hcmp : authCompare (get_password_response nonce p)
          (get_password_response nonce p2) with
      | false => rfl
      | true => exact absurd (hiff.mp hcmp).symm hne
    simp [proxy_worker_verify, this]

/-- C1 witness: the theorem applied at nonce 0 and passwords "A", "a". -/
theorem password_response_verification_witness :
    proxy_worker_verify 0 "A" (get_password_response 0 "A") = (0, false) :=
  (password_response_verification 0 "A" "a" (by decide) (by decide)).1

/-- C1 counterexample: with nonce 0 the password "a" is different from "A",
yet its response is accepted when the configured password is "A", because
`get_password_response` uppercases the password before hashing. -/
theorem password_verify_accepts_other_password :
    ("a" : String) ≠ "A" ∧
    proxy_worker_verify 0 "A" (get_password_response 0 "a") = (0, false) := by
  refine ⟨by decide, ?_⟩
  have harg : (strBytes "a").map upperByte ++ (digest_to_hex32 0).map Char.toNat =
      (strBytes "A").map upperByte ++ (digest_to_hex32 0).map Char.toNat := by
    decide
  have hresp : get_password_response 0 "a" = get_password_response 0 "A" := by
    unfold get_password_response
    rw [harg]
  rw [hresp]
  simp [proxy_worker_verify, authCompare_self]

/-! ## C2 -/

/-- C2: `proxy_conn_accept` fails with -EBUSY exactly when the slot already
has a bound client, or when `reconnect_only` is set and the callsign differs
from the slot's stored callsign; otherwise it stores the callsign and the
client and returns 0. -/
theorem proxy_conn_accept_spec (pc : SlotState) (conn : Nat) (cs : String)
    (ro : Bool) :
    ((proxy_conn_accept pc conn cs ro).2 = -16 ↔
      pc.conn_client ≠ none ∨ (ro = true ∧ cs ≠ pc.callsign)) ∧
    (pc.conn_client = none → (ro = true → cs = pc.callsign) →
      proxy_conn_accept pc conn cs ro = (⟨some conn, cs⟩, 0)) := by
  unfold proxy_conn_accept
  cases hc : pc.conn_client with
  | some c => simp [hc]
  | none =>
    cases ro with
    | false => simp
    | true =>
      by_cases hcs : cs = pc.callsign
      · simp [hcs]
      · simp [hcs]

/-- C2 witness: a free slot accepts a non-reconnect client. -/
theorem proxy_conn_accept_spec_witness :
    proxy_conn_accept ⟨none, "N0CALL"⟩ 7 "KM0H" false = (⟨some 7, "KM0H"⟩, 0) :=
  (proxy_conn_accept_spec ⟨none, "N0CALL"⟩ 7 "KM0H" false).2 rfl
    (fun h => absurd h (by decide))

/-! ## C10 -/

/-- C10: once the registration status is Off, `registration_service_update`
leaves the whole registration state unchanged and does not wake the
reporter; whenever an update changes anything (or wakes the reporter) the
previous status was strictly below Off. -/
theorem registration_update_off_frozen :
    (∀ (st : RegState) (u t : Nat), st.status = .off →
      registration_service_update st u t = (st, false)) ∧
    (∀ (st : RegState) (u t : Nat),
      registration_service_update st u t ≠ (st, false) →
      st.status.code < RegStatus.off.code) := by
  constructor
  · intro st u t hoff
    simp [registration_service_update, hoff, RegStatus.code]
  · intro st u t hchg
    by_contra hge
    have hcode : ¬ st.status.code < RegStatus.off.code := hge
    simp [registration_service_update, hcode] at hchg

/-- C10 witness: an update against an Off state is a no-op without wake. -/
theorem registration_update_off_frozen_witness :
    registration_service_update ⟨2, 5, .off⟩ 9 9 = (⟨2, 5, .off⟩, false) :=
  registration_update_off_frozen.1 ⟨2, 5, .off⟩ 9 9 rfl

/-! ## C4 -/

/-- C4 counterexample: starting from a Ready registration state,
`proxy_shutdown` leaves the registration status Busy, not Off — the update
it fires runs with `slots_total = 0`, and `slots_used >= 0` always maps to
Busy; Off is never reported by shutdown. -/
theorem proxy_shutdown_status_not_off :
    (proxy_shutdown ⟨3, 1, 1, ⟨0, 3, .ready⟩⟩).1.reg.status = .busy ∧
    RegStatus.busy ≠ .off := by
  constructor
  · rfl
  · decide

/-- C4 (amended): `proxy_shutdown` sets `usable_clients` to 0, fires a
registration update with `slots_used = num_clients` minus the idle workers
and `slots_total = 0`, and then shuts down the listener socket, in that
order; the update sets the reported status to Busy (since
`slots_used >= slots_total = 0`) unless the status was already Off, in which
case it is left untouched.  A reported status of Off is produced only by
`registration_service_stop` (called from `proxy_close`). -/
theorem proxy_shutdown_spec (ps : ProxyState) :
    (proxy_shutdown ps).1.usable_clients = 0 ∧
    (proxy_shutdown ps).2 =
      [.setUsable 0,
       .regUpdate (ps.num_clients - ps.idle_worker_count) 0,
       .listenerShutdown] ∧
    (proxy_shutdown ps).1.reg.status =
      (if ps.reg.status = .off then .off else .busy) ∧
    (registration_service_stop ps.reg).status = .off := by
  refine ⟨rfl, rfl, ?_, rfl⟩
  cases hs : ps.reg.status with
  | off =>
    simp [proxy_shutdown, proxy_update_registration, registration_service_update,
      hs, RegStatus.code]
  | unknown =>
    simp [proxy_shutdown, proxy_update_registration, registration_service_update,
      hs, RegStatus.code]
  | ready =>
    simp [proxy_shutdown, proxy_update_registration, registration_service_update,
      hs, RegStatus.code]
  | busy =>
    simp [proxy_shutdown, proxy_update_registration, registration_service_update,
      hs, RegStatus.code]

/-! ## C6 -/

/-- C6: the filter allows a callsign exactly when no deny pattern is
configured or the deny pattern reports no-match (result 0), and no allow
pattern is configured or the allow pattern reports a match (result 1); any
engine error (negative result) on either pattern yields denial. -/
theorem proxy_authorize_callsign_spec (denied allowed : Option (String → Int))
    (cs : String) :
    (proxy_authorize_callsign denied allowed cs = 1 ↔
      ((∀ f, denied = some f → f cs = 0) ∧ (∀ g, allowed = some g → g cs = 1))) ∧
    (∀ f, denied = some f → f cs < 0 →
      proxy_authorize_callsign denied allowed cs = 0) ∧
    (∀ g, allowed = some g → g cs < 0 →
      proxy_authorize_callsign denied allowed cs = 0) := by
  unfold proxy_authorize_callsign authorize_allowed_part
  cases denied with
  | none =>
    cases allowed with
    | none => simp
    | some g =>
      by_cases hg : g cs = 1
      · simp [hg]
      · simp [hg]
  | some f =>
    by_cases hf : f cs = 0
    · cases allowed with
      | none => simp [hf]
      | some g =>
        by_cases hg : g cs = 1
        · simp [hf, hg]
        · simp [hf, hg]
    · simp [hf]

/-- C6 witness: an engine error on the deny pattern denies the callsign. -/
theorem proxy_authorize_callsign_spec_witness :
    proxy_authorize_callsign (some fun _ => (-22 : Int)) none "KM0H" = 0 :=
  (proxy_authorize_callsign_spec (some fun _ => (-22 : Int)) none "KM0H").2.1
    _ rfl (by decide)

/-! ## C7 -/

/-- The `switch` of `process_message` as a result: the selected handler, or
-EINVAL (-22) from the default branch. -/
def process_message_check (t : Nat) : Except Int MsgHandler :=
  match process_message_dispatch t with
  | some h => .ok h
  | none => .error (-22)

/-- C7: `process_message` fails with -EINVAL exactly when the frame-type
byte is not one of TCP_OPEN (1), TCP_DATA (2), TCP_CLOSE (3), UDP_DATA (5),
UDP_CONTROL (6); in particular every type outside 1..7 fails, and the
proxy-to-client-only types TCP_STATUS (4) and SYSTEM (7) also fail. -/
theorem process_message_invalid_type (t : Nat) :
    (process_message_check t = .error (-22) ↔
      ¬(t = 1 ∨ t = 2 ∨ t = 3 ∨ t = 5 ∨ t = 6)) ∧
    process_message_check 4 = .error (-22) ∧
    process_message_check 7 = .error (-22) ∧
    (t = 0 ∨ 8 ≤ t → process_message_check t = .error (-22)) := by
  refine ⟨?_, rfl, rfl, ?_⟩
  · unfold process_message_check process_message_dispatch
    split_ifs with h1 h2 h3 h4 h5 <;> simp_all
  · intro ht
    unfold process_message_check process_message_dispatch
    split_ifs with h1 h2 h3 h4 h5 <;> simp_all

/-- C7 witness: type 9 (outside 1..7) is rejected with -EINVAL. -/
theorem process_message_invalid_type_witness :
    process_message_check 9 = .error (-22) :=
  (process_message_invalid_type 9).2.2.2 (Or.inr (by decide))

/-! ## C9 -/

/-- C9 counterexample: the line `Port=` — the Port key with an empty value —
makes `conf_parse_line` fail with -EINVAL (-22), because
`sscanf(val, "%hu%1s", ...)` matches nothing; the claim that an empty value
never fails is false for Port. -/
theorem conf_parse_empty_port_fails :
    conf_parse_line "Port=" conf_default = .error (-22) ∧
    (-22 : Int) ≠ 0 := by
  refine ⟨rfl, by decide⟩

/-- C9 (amended): for the string-valued keys other than Password
(BindAddress, ExternalBindAddress, AdditionalExternalBindAddresses,
CallsignsAllowed, CallsignsDenied, RegistrationName, RegistrationComment) an
empty trimmed value unsets the field and does not fail; for Password an
empty value does not fail but sets the password to the empty string rather
than unsetting it; for Port an empty value fails with -EINVAL. -/
theorem conf_parse_empty_value (conf : ProxyConf) :
    conf_parse_pair "BindAddress" "" conf = .ok { conf with bind_addr := none } ∧
    conf_parse_pair "ExternalBindAddress" "" conf =
      .ok { conf with bind_addr_ext := none } ∧
    conf_parse_pair "AdditionalExternalBindAddresses" "" conf =
      .ok { conf with bind_addr_ext_add := none } ∧
    conf_parse_pair "CallsignsAllowed" "" conf =
      .ok { conf with calls_allowed := none } ∧
    conf_parse_pair "CallsignsDenied" "" conf =
      .ok { conf with calls_denied := none } ∧
    conf_parse_pair "RegistrationName" "" conf =
      .ok { conf with reg_name := none } ∧
    conf_parse_pair "RegistrationComment" "" conf =
      .ok { conf with reg_comment := none } ∧
    conf_parse_pair "Password" "" conf = .ok { conf with password := some "" } ∧
    conf_parse_pair "Port" "" conf = .error (-22) :=
  ⟨rfl, rfl, rfl, rfl, rfl, rfl, rfl, rfl, rfl⟩

/-! ## C5 -/

set_option maxRecDepth 1000000 in
/-- C5: the registration report body follows the claimed shape except that
`digest_to_str` renders the MD5 digest with the UPPERCASE hex table, while
the claim — and the repository test test/test_md5.c, whose control string
for this very function is lowercase "308fb76dc4d730360ee33932d2fb1056" —
requires lowercase.  Evaluated at the test digest and at a concrete
registration: the produced body differs from the claimed body exactly in
the case of the `d=` digest. -/
theorem registration_digest_uppercase_bug :
    String.mk (digest_to_str
      [0x30, 0x8f, 0xb7, 0x6d, 0xc4, 0xd7, 0x30, 0x36,
       0x0e, 0xe3, 0x39, 0x32, 0xd2, 0xfb, 0x10, 0x56]) =
      "308FB76DC4D730360EE33932D2FB1056" ∧
    ("308FB76DC4D730360EE33932D2FB1056" : String) ≠
      "308fb76dc4d730360ee33932d2fb1056" ∧
    send_report_body "proxy1" "c" 'N' .ready 0 1 "1.2.3.4" 8100 =
      some ("name=proxy1&comment=c [0/1]&public=N&status=Ready" ++
        "&a=1.2.3.4&d=8B12A220144DF17D12ADDB1B2CE16249&p=8100&v=1.2.3o") ∧
    spec_report_body "proxy1" "c" 'N' .ready 0 1 "1.2.3.4" 8100 =
      some ("name=proxy1&comment=c [0/1]&public=N&status=Ready" ++
        "&a=1.2.3.4&d=8b12a220144df17d12addb1b2ce16249&p=8100&v=1.2.3o") ∧
    send_report_body "proxy1" "c" 'N' .ready 0 1 "1.2.3.4" 8100 ≠
      spec_report_body "proxy1" "c" 'N' .ready 0 1 "1.2.3.4" 8100 := by
  refine ⟨by decide, by decide, by decide, by decide, by decide⟩

/-! ## C3 -/

theorem reconnectPass_spec (conn : Nat) (cs : String) :
    ∀ l : List SlotState, (∀ s ∈ l, s.conn_client = none) →
    ((∀ s ∈ l, s.callsign ≠ cs) → reconnectPass conn cs l = none) ∧
    ((∃ s ∈ l, s.callsign = cs) →
      reconnectPass conn cs l =
        some (⟨some conn, cs⟩,
          l.eraseIdx (l.findIdx fun s => s.callsign == cs))) := by
  intro l
  induction l with
  | nil =>
    intro _
    refine ⟨fun _ => rfl, ?_⟩
    rintro ⟨s, hs, -⟩
    simp at hs
  | cons pc rest ih =>
    intro hnone
    have hpc : pc.conn_client = none := hnone pc (by simp)
    have hrest : ∀ s ∈ rest, s.conn_client = none :=
      fun s hs => hnone s (by simp [hs])
    by_cases hcs : cs = pc.callsign
    · have hacc : proxy_conn_accept pc conn cs true = (⟨some conn, cs⟩, 0) := by
        simp [proxy_conn_accept, hpc, hcs]
      constructor
      · intro hall
        exact absurd hcs.symm (hall pc (by simp))
      · intro _
        simp only [reconnectPass, hacc]
        norm_num
        rw [List.findIdx_cons]
        simp [hcs.symm]
    · have hacc : proxy_conn_accept pc conn cs true = (pc, -16) := by
        simp [proxy_conn_accept, hpc, hcs]
      constructor
      · intro hall
        have hrestall : ∀ s ∈ rest, s.callsign ≠ cs :=
          fun s hs => hall s (by simp [hs])
        simp only [reconnectPass, hacc]
        rw [(ih hrest).1 hrestall]
        simp
      · rintro ⟨s, hs, hscs⟩
        have hsrest : s ∈ rest := by
          rcases List.mem_cons.mp hs with h | h
          · exact absurd (h ▸ hscs) (fun hh => hcs hh.symm)
          · exact h
        simp only [reconnectPass, hacc]
        rw [(ih hrest).2 ⟨s, hsrest, hscs⟩]
        rw [List.findIdx_cons]
        have : (pc.callsign == cs) = false := by
          simp
          exact fun hh => hcs hh.symm
        simp [this]

/-- C3: for an admission over an idle list of unbound slots, the scheduler
makes one head-to-tail reconnect pass; when some idle slot stores the
client's callsign, the first such slot is accepted and unlinked; when none
does, the head of the idle list — the least-recently-used slot — is accepted
and unlinked; and a slot finishing service is re-appended at the tail of the
idle list. -/
theorem proxy_worker_schedule_spec (idle : List SlotState) (conn : Nat)
    (cs : String) (pc : SlotState)
    (h : ∀ s ∈ idle, s.conn_client = none) :
    ((∃ s ∈ idle, s.callsign = cs) →
      proxy_worker_schedule idle conn cs =
        some (⟨some conn, cs⟩,
          idle.eraseIdx (idle.findIdx fun s => s.callsign == cs))) ∧
    ((∀ s ∈ idle, s.callsign ≠ cs) → idle ≠ [] →
      proxy_worker_schedule idle conn cs = some (⟨some conn, cs⟩, idle.tail)) ∧
    returnToPool idle pc = idle ++ [pc] := by
  refine ⟨?_, ?_, rfl⟩
  · intro hex
    cases idle with
    | nil =>
      rcases hex with ⟨s, hs, -⟩
      simp at hs
    | cons pc0 rest =>
      simp only [proxy_worker_schedule]
      rw [(reconnectPass_spec conn cs (pc0 :: rest) h).2 hex]
  · intro hall hne
    cases idle with
    | nil => exact absurd rfl hne
    | cons pc0 rest =>
      simp only [proxy_worker_schedule]
      rw [(reconnectPass_spec conn cs (pc0 :: rest) h).1 hall]
      have h0 : pc0.conn_client = none := h pc0 (by simp)
      simp [proxy_conn_accept, h0]

/-- C3 witness: with both slots idle and unbound, the reconnect pass picks
the matching slot even though it is not at the head. -/
theorem proxy_worker_schedule_spec_witness :
    proxy_worker_schedule
      [⟨none, "N0CALL"⟩, ⟨none, "KM0H"⟩] 5 "KM0H" =
      some (⟨some 5, "KM0H"⟩, [⟨none, "N0CALL"⟩]) := by
  have h := (proxy_worker_schedule_spec
    [⟨none, "N0CALL"⟩, ⟨none, "KM0H"⟩] 5 "KM0H" ⟨none, "X"⟩
    (by decide)).1 (by decide)
  exact h.trans (by decide)

/-! ## C8 -/

theorem tcp_drain (sendRes : Nat → Int) :
    ∀ (fuel m : Nat) (tcpRet : Int) (st : TcpDataSt), m ≤ fuel → tcpRet ≠ 0 →
    process_tcp_data_loop sendRes fuel m tcpRet st =
      ({ st with consumed := st.consumed + m }, tcpRet) := by
  intro fuel
  induction fuel with
  | zero =>
    intro m t st hm ht
    have hm0 : m = 0 := by omega
    subst hm0
    simp [process_tcp_data_loop]
  | succ f ih =>
    intro m t st hm ht
    cases m with
    | zero => simp [process_tcp_data_loop]
    | succ m1 =>
      have hmin1 : 1 ≤ min (m1 + 1) CONN_BUFF_LEN := by
        simp [CONN_BUFF_LEN]
      have hcle : min (m1 + 1) CONN_BUFF_LEN ≤ m1 + 1 := Nat.min_le_left _ _
      simp only [process_tcp_data_loop]
      rw [if_neg ht]
      rw [ih (m1 + 1 - min (m1 + 1) CONN_BUFF_LEN) t _ (by omega) ht]
      simp only [Prod.mk.injEq, TcpDataSt.mk.injEq, and_true, true_and,
        eq_self_iff_true]
      all_goals omega

theorem tcpLoop_fail (sendRes : Nat → Int) :
    ∀ (k fuel m : Nat) (st : TcpDataSt), m ≤ fuel →
    (∀ j, j < k → sendRes (st.sendAttempts + j) = 0) →
    sendRes (st.sendAttempts + k) < 0 →
    CONN_BUFF_LEN * k < m →
    process_tcp_data_loop sendRes fuel m 0 st =
      (⟨st.consumed + m, st.sendAttempts + k + 1, true, st.tcpCloseSent⟩,
       sendRes (st.sendAttempts + k)) := by
  intro k
  induction k with
  | zero =>
    intro fuel m st hfm hprev hfail hm
    simp only [CONN_BUFF_LEN] at hm
    rw [Nat.add_zero] at hfail
    cases m with
    | zero => omega
    | succ m1 =>
      cases fuel with
      | zero => omega
      | succ f =>
        have hmin1 : 1 ≤ min (m1 + 1) CONN_BUFF_LEN := by
          simp [CONN_BUFF_LEN]
        have hcle : min (m1 + 1) CONN_BUFF_LEN ≤ m1 + 1 := Nat.min_le_left _ _
        simp only [process_tcp_data_loop]
        rw [if_pos trivial]
        rw [if_pos hfail]
        rw [tcp_drain sendRes f (m1 + 1 - min (m1 + 1) CONN_BUFF_LEN) _ _
          (by omega) (by omega)]
        simp only [Prod.mk.injEq, TcpDataSt.mk.injEq, Nat.add_zero, and_true,
          true_and, eq_self_iff_true]
        all_goals omega
  | succ k1 ih =>
    intro fuel m st hfm hprev hfail hm
    have hm4 : CONN_BUFF_LEN * (k1 + 1) < m := hm
    have hbig : CONN_BUFF_LEN + 1 ≤ m := by
      simp only [CONN_BUFF_LEN] at hm4 ⊢
      omega
    cases m with
    | zero => omega
    | succ m1 =>
      cases fuel with
      | zero =>
        exfalso
        simp only [CONN_BUFF_LEN] at hbig
        omega
      | succ f =>
        have hcurr : min (m1 + 1) CONN_BUFF_LEN = CONN_BUFF_LEN := by
          simp only [CONN_BUFF_LEN] at hbig ⊢
          omega
        have hsend0 : sendRes st.sendAttempts = 0 := by
          have h0 := hprev 0 (by omega)
          simpa using h0
        simp only [process_tcp_data_loop]
        rw [if_pos trivial]
        rw [hsend0]
        rw [if_neg (by omega : ¬ (0 : Int) < 0)]
        rw [hcurr]
        have hrec := ih f (m1 + 1 - CONN_BUFF_LEN)
          ⟨st.consumed + CONN_BUFF_LEN, st.sendAttempts + 1, st.tcpClosed,
           st.tcpCloseSent⟩
          (by simp only [CONN_BUFF_LEN] at hbig ⊢; omega)
          (by
            intro j hj
            have hj1 := hprev (j + 1) (by omega)
            have heq : st.sendAttempts + (j + 1) = st.sendAttempts + 1 + j := by
              omega
            rw [heq] at hj1
            exact hj1)
          (by
            have heq : st.sendAttempts + 1 + k1 = st.sendAttempts + (k1 + 1) := by
              omega
            rw [heq]
            exact hfail)
          (by simp only [CONN_BUFF_LEN] at hm4 ⊢; omega)
        rw [hrec]
        have e1 : st.consumed + CONN_BUFF_LEN + (m1 + 1 - CONN_BUFF_LEN) =
            st.consumed + (m1 + 1) := by
          simp only [CONN_BUFF_LEN] at hbig ⊢
          omega
        have e2 : st.sendAttempts + 1 + k1 = st.sendAttempts + (k1 + 1) := by
          omega
        simp only [Prod.mk.injEq, TcpDataSt.mk.injEq, e1, e2, and_true,
          true_and, eq_self_iff_true]

/-- C8: while handling a client TCP_DATA frame of payload length `size`, if
the k-th outbound write fails (all earlier writes having succeeded, with at
least one chunk left to trigger attempt k), the handler still consumes
exactly the `size` frame bytes from the client stream, closes the outbound
TCP connection, sends exactly one TCP_CLOSE frame to the client, and
attempts no outbound write beyond the failing one. -/
theorem process_tcp_data_outbound_failure (sendRes : Nat → Int) (size k : Nat)
    (hk : CONN_BUFF_LEN * k < size)
    (hfail : sendRes k < 0)
    (hbefore : ∀ j, j < k → sendRes j = 0) :
    process_tcp_data_message sendRes size = ⟨size, k + 1, true, 1⟩ := by
  unfold process_tcp_data_message
  rw [tcpLoop_fail sendRes k size size ⟨0, 0, false, 0⟩ le_rfl
    (by simpa using hbefore) (by simpa using hfail) hk]
  simp only []
  rw [if_pos (by simpa using (by omega : ¬ sendRes k = 0))]
  simp

/-- C8 witness: a 2-byte TCP_DATA frame whose first outbound write fails is
fully drained, the outbound TCP is closed, and a single TCP_CLOSE goes to
the client. -/
theorem process_tcp_data_outbound_failure_witness :
    process_tcp_data_message (fun _ => (-32 : Int)) 2 = ⟨2, 1, true, 1⟩ :=
  process_tcp_data_outbound_failure (fun _ => (-32 : Int)) 2 0 (by decide)
    (by decide) (fun j hj => absurd hj (by omega))

end OpenELP
